import Mathlib

/-!
Shallow embedding of the PensiveFlix enclave runtime service
(`pflix_service.rs`, crate `pfx`).

The embedding models the `Pflix` aggregate state and the request handlers
that the verified claims are about: the key-handover protocol
(`get_worker_key_challenge`, `verify_worker_key_challenge`, `handover_start`),
runtime initialization (`init_runtime`), block dispatch (`dispatch_blocks`),
the attestation-report cache (`get_runtime_info`,
`create_attestation_report_on`), and the recovery entry points
(`load_storage_proof`, `load_chain_state`).

External collaborators of the service (the chain-storage trie, the SGX
attestation primitives, the light client, codecs, the application system)
are not part of this source file; they are modelled as uninterpreted
functions gathered in an `Env` record, exactly at the call sites where the
Rust code invokes them.  Machine integers are modelled as `Nat`; the one
place where `u32` wrap-around is reachable (`next_block_number - 1` in
`dispatch_blocks`) is modelled with an explicit `% 2^32`.
`Result`-returning code is modelled with `Except String`, and fallible
external calls with `Option`/`Except`.
-/

namespace Pfx

abbrev Bytes := List Nat

abbrev Hash := Nat

/-- Opaque handle to a chain-storage snapshot; all reads and writes on it go
through the `Env` functions, mirroring the fact that the trie engine is an
external collaborator of this source file. -/
abbrev ChainStorage := Nat

/-- `AttestationProvider` as used by the service: `Ias` or `Dcap`. -/
inductive AttestationProvider where
  | Ias
  | Dcap
deriving DecidableEq, Repr

/-- Counters and the validated flag exposed by the storage synchronizer. -/
structure SyncState where
  next_header_number : Nat
  next_block_number : Nat
  state_validated : Bool
deriving DecidableEq, Repr

/-- The live runtime aggregate (`RuntimeState` in the source): message
queues, synchronizer, chain storage handle and the genesis block hash. -/
structure RuntimeState where
  send_mq : List Nat
  recv_mq : List Nat
  synchronizer : SyncState
  chain_storage : ChainStorage
  genesis_block_hash : Hash
deriving DecidableEq, Repr

/-- The part of `System` that the handlers in this file read or write. -/
structure SystemState where
  is_registered : Bool
  now_ms : Nat
  genesis_block : Nat
  identity_pubkey : Nat
deriving DecidableEq, Repr

/-- `pb::Attestation`: a wrapped attestation report with its creation
timestamp (used for the 1-hour cache-freshness window). -/
structure Attestation where
  version : Nat
  provider : Option AttestationProvider
  encoded_report : Bytes
  timestamp : Nat
deriving DecidableEq, Repr

/-- Decoded `AttestationReport` (IAS report or DCAP quote). -/
inductive AttestationReport where
  | SgxIas (ra_report : Bytes)
  | SgxDcap (quote : Bytes)
deriving DecidableEq, Repr

/-- SGX measurement fields used to derive the on-chain measurement hash. -/
structure SgxFields where
  mr_enclave : Nat
  mr_signer : Nat
  isv_prod_id : Nat
  isv_svn : Nat
  report_data : Bytes
  confidence_level : Nat
deriving DecidableEq, Repr

/-- Body of an SGX local-attestation report (metadata the server reads about
itself in gate 5 of `handover_start`). -/
structure SgxReportBody where
  mr_enclave : Nat
  mr_signer : Nat
  isv_prod_id : Nat
  isv_svn : Nat
deriving DecidableEq, Repr

/-- `HandoverChallenge`: single-use challenge issued by the handover server. -/
structure HandoverChallenge where
  sgx_target_info : Bytes
  block_number : Nat
  now : Nat
  dev_mode : Bool
  nonce : Bytes
deriving DecidableEq, Repr

/-- `ChallengeHandlerInfo`: the client's answer to a handover challenge. -/
structure ChallengeHandlerInfo where
  challenge : HandoverChallenge
  sgx_local_report : Bytes
  ecdh_pubkey : Nat
deriving DecidableEq, Repr

/-- The wire request of `handover_start` (`pb::HandoverChallengeResponse`).
`challenge_handler?` is `none` when the scale-decoding of the payload fails. -/
structure HandoverChallengeResponse where
  challenge_handler? : Option ChallengeHandlerInfo
  attestation : Option Attestation
deriving DecidableEq, Repr

/-- `EncryptedKey`: ECDH public key, ciphertext and IV of the shared secret. -/
structure EncryptedKey where
  ecdh_pubkey : Nat
  encrypted_key : Bytes
  iv : Bytes
deriving DecidableEq, Repr

/-- `EncryptedWorkerKey` as produced by the handover server. -/
structure EncryptedWorkerKey where
  genesis_block_hash : Hash
  dev_mode : Bool
  encrypted_key : EncryptedKey
deriving DecidableEq, Repr

/-- `pb::HandoverWorkerKey`: the server's reply to `handover_start`. -/
structure HandoverWorkerKey where
  encrypted_worker_key : EncryptedWorkerKey
  attestation : Option Attestation
deriving DecidableEq, Repr

/-- The persistent runtime data (sealed identity) read back by the server
when sharing its key. -/
structure RuntimeData where
  sk : Nat
  identity_key : Nat
  ecdh_key : Nat
  dev_mode : Bool
  trusted_sk : Bool
deriving DecidableEq, Repr

/-- `WorkerRegistrationInfo` built by `init_runtime`. -/
structure WorkerRegistrationInfo where
  version : Nat
  machine_id : Bytes
  pubkey : Nat
  ecdh_pubkey : Nat
  genesis_block_hash : Hash
  features : List Nat
  operator : Option Nat
deriving DecidableEq, Repr

/-- `pb::InitRuntimeResponse`: the cached runtime-registration response,
carrying the (lazily created) attestation report. -/
structure InitRuntimeResponse where
  encoded_runtime_info : Bytes
  genesis_block_hash : Hash
  pubkey : Nat
  ecdh_pubkey : Nat
  attestation : Option Attestation
deriving DecidableEq, Repr

/-- Block header fields the embedded handlers read. -/
structure BlockHeader where
  parent_hash : Hash
  number : Nat
  state_root : Hash
  extrinsics_root : Hash
deriving DecidableEq, Repr

/-- `GenesisBlockInfo` passed to `init_runtime`. -/
structure GenesisBlockInfo where
  block_header : BlockHeader
  authority_set : Bytes
  proof : Bytes
deriving DecidableEq, Repr

/-- `BlockHeaderWithChanges` as consumed by `dispatch_blocks`: the header
number plus an opaque blob of storage changes. -/
structure BlockHeaderWithChanges where
  number : Nat
  changes : Bytes
deriving DecidableEq, Repr

/-- Command-line/config arguments the handlers consult. -/
structure Args where
  safe_mode_level : Nat
  ra_timeout : Nat
  ra_max_retries : Nat
  enable_checkpoint : Bool
  checkpoint_interval : Nat
deriving DecidableEq, Repr

/-- The `Pflix` aggregate: every field a handler in this source file reads
or writes. -/
structure Pflix where
  runtime_state : Option RuntimeState
  system : Option SystemState
  dev_mode : Bool
  trusted_sk : Bool
  attestation_provider : Option AttestationProvider
  runtime_info : Option InitRuntimeResponse
  handover_last_challenge : Option HandoverChallenge
  handover_ecdh_key : Option Nat
  endpoint : Option String
  args : Args
  machine_id : Bytes
deriving DecidableEq, Repr

/-- The external collaborators of `pflix_service.rs`, as uninterpreted
functions: the chain-storage trie, codecs, hashing, SGX primitives, the key
sharing scheme, the platform attestation call (indexed by retry count), the
storage synchronizer, and the application system.  Randomness
(`generate_random_iv`, nonce) and wall-clock time (`now`) are plain values
since each handler call reads them once. -/
structure Env where
  now : Nat
  timestamp_now : ChainStorage → Nat
  root : ChainStorage → Hash
  from_pairs : List (Bytes × Bytes) → ChainStorage
  load_proof : ChainStorage → List Bytes → ChainStorage
  get_pflix_bin_added_at : ChainStorage → Hash → Option Nat
  is_worker_registered : ChainStorage → Nat → Bool
  blake2_256 : Bytes → Hash
  encode_challenge_handler : ChallengeHandlerInfo → Bytes
  encode_worker_key : EncryptedWorkerKey → Bytes
  encode_runtime_info : WorkerRegistrationInfo → Bytes
  decode_attestation : Bytes → Option (Option AttestationReport)
  validate_attestation_report : Option AttestationReport → Hash → Nat → Bool
  la_decode : Bytes → Option Nat
  la_verify : Nat → Bool
  sgx_target_info_e : Bytes
  sgx_report : Bytes → Option SgxReportBody
  measurement_hash : SgxFields → Hash
  sgx_fields_from_ias : Bytes → Option SgxFields
  sgx_fields_from_dcap : Bytes → Option SgxFields
  generate_random_iv : Bytes
  persistent_runtime_data : Option RuntimeData
  encrypt_secret_to : Nat → Nat → Nat → Bytes → Option (Nat × Bytes)
  attempt_on : Hash → Nat → Option Bytes
  feed_block : SyncState → ChainStorage → BlockHeaderWithChanges → Bool → Option (SyncState × ChainStorage)
  purge_mq : RuntimeState → RuntimeState
  process_block : Pflix → Nat → Pflix
  checkpoint_elapsed : Nat
  take_checkpoint : Pflix → Except String Pflix
  init_runtime_data : Hash → Option Nat → Except String RuntimeData
  pair_from_seed : Bytes → Except String Nat
  quote_test : Option AttestationProvider → Except String Unit
  header_hash : BlockHeader → Hash
  new_synchronizer : BlockHeader → Bytes → Bytes → Bool → SyncState
  new_system : Bool → Nat → Nat → SystemState
  apply_operator : InitRuntimeResponse → Option Nat → InitRuntimeResponse
  nonce : Bytes
  cpu_core_num : Nat
  cpu_feature_level : Nat
  compat_app_version : Nat
  assume_at_block : SyncState → Nat → Except String SyncState
  can_load_chain_state : Pflix → Bool

/-- `true` exactly on `Except.error`. -/
def isErr {ε α : Type} : Except ε α → Bool
  | .error _ => true
  | .ok _ => false

/-- Whether the configured provider is an SGX remote-attestation provider
(`Ias` or `Dcap`), as computed at the top of `handover_start`. -/
def in_sgx (p : Pflix) : Bool :=
  p.attestation_provider == some AttestationProvider.Ias
    || p.attestation_provider == some AttestationProvider.Dcap

/-- `Pflix::current_block`: the last applied block number
(`next_block_number.saturating_sub(1)`, which is `Nat` subtraction here)
and the on-chain timestamp; fails when the runtime is uninitialized. -/
def current_block (env : Env) (p : Pflix) : Except String (Nat × Nat) :=
  match p.runtime_state with
  | none => .error "Runtime not initialized"
  | some rs =>
      .ok (rs.synchronizer.next_block_number - 1, env.timestamp_now rs.chain_storage)

/-- `Pflix::get_worker_key_challenge`: issue a fresh single-use handover
challenge and store it as the last issued one (overwriting any prior). -/
def get_worker_key_challenge (env : Env) (p : Pflix) (block_number : Nat) (now : Nat) :
    HandoverChallenge × Pflix :=
  let sgx_target_info := if p.dev_mode then [] else env.sgx_target_info_e
  let challenge : HandoverChallenge :=
    { sgx_target_info := sgx_target_info
      block_number := block_number
      now := now
      dev_mode := p.dev_mode
      nonce := env.nonce }
  (challenge, { p with handover_last_challenge := some challenge })

/-- `Pflix::verify_worker_key_challenge`:
`self.handover_last_challenge.take().as_ref() == Some(challenge)` —
the stored challenge is taken (and hence cleared) unconditionally and then
compared against the submitted one. -/
def verify_worker_key_challenge (p : Pflix) (challenge : HandoverChallenge) :
    Bool × Pflix :=
  (if p.handover_last_challenge = some challenge then true else false,
   { p with handover_last_challenge := none })

/-- The retry loop of `create_attestation_report_on`.  `attempt i` is the
outcome of the `i`-th invocation of
`platform.create_attestation_report(provider, data, timeout)` (the payload
and timeout are folded into `attempt`).  `tried` starts at `0`; on failure,
if `tried ≥ max_retries` the loop gives up, otherwise it sleeps
`min (1 <<< tried) 8` seconds and retries.  The returned list is the sleep
schedule actually executed. -/
def createLoop (attempt : Nat → Option Bytes) (max_retries tried : Nat) :
    Option Bytes × List Nat :=
  match attempt tried with
  | some r => (some r, [])
  | none =>
      if h : max_retries ≤ tried then (none, [])
      else
        let rest := createLoop attempt max_retries (tried + 1)
        (rest.1, min (2 ^ tried) 8 :: rest.2)
termination_by max_retries - tried
decreasing_by omega

/-- `create_attestation_report_on`: run the retry loop from `tried = 0`; on
success wrap the encoded report with `version = 1`, the serialized provider
and the current timestamp. -/
def create_attestation_report_on (attempt : Nat → Option Bytes)
    (attestation_provider : Option AttestationProvider) (max_retries : Nat)
    (now : Nat) : Except String Attestation × List Nat :=
  match createLoop attempt max_retries 0 with
  | (none, sleeps) => (.error "Failed to create attestation report", sleeps)
  | (some r, sleeps) =>
      (.ok { version := 1
             provider := attestation_provider
             encoded_report := r
             timestamp := now }, sleeps)

/-- Gate 1 of `handover_start`: in non-dev SGX mode, decode the client's
remote-attestation report and validate it against the blake2-256 hash of the
encoded challenge handler and the current block time; skipped (yielding no
report) in dev mode or without an SGX provider. -/
def clientRaCheck (env : Env) (dev_mode sgx : Bool) (req : HandoverChallengeResponse)
    (challenge_handler : ChallengeHandlerInfo) (block_sec : Nat) :
    Except String (Option AttestationReport) :=
  if !dev_mode && sgx then
    let payload_hash := env.blake2_256 (env.encode_challenge_handler challenge_handler)
    match req.attestation with
    | none => .error "Client attestation not found"
    | some raw =>
        match env.decode_attestation raw.encoded_report with
        | none => .error "Decode client attestation failed"
        | some attn =>
            if env.validate_attestation_report attn payload_hash block_sec then .ok attn
            else .error "Invalid client RA report"
  else .ok none

/-- Gate 3 of `handover_start`: in non-dev SGX mode, decode and verify the
client's SGX local-attestation report (same-machine proof). -/
def laCheck (env : Env) (dev_mode sgx : Bool) (challenge_handler : ChallengeHandlerInfo) :
    Except String Unit :=
  if !dev_mode && sgx then
    match env.la_decode challenge_handler.sgx_local_report with
    | none => .error "Invalid client LA report"
    | some rep => if env.la_verify rep then .ok () else .error "No remote handover"
  else .ok ()

/-- The server's own measurement hash: a local report on itself, with its
SGX fields (report data zeroed, confidence level 0) fed to
`measurement_hash`.  `none` when `sgx_api_lite::report` fails. -/
def serverRuntimeHash (env : Env) : Option Hash :=
  (env.sgx_report env.sgx_target_info_e).map fun body =>
    env.measurement_hash
      { mr_enclave := body.mr_enclave
        mr_signer := body.mr_signer
        isv_prod_id := body.isv_prod_id
        isv_svn := body.isv_svn
        report_data := List.replicate 64 0
        confidence_level := 0 }

/-- The client's measurement hash, extracted from its validated attestation
report (IAS report or DCAP quote). -/
def clientRuntimeHash (env : Env) (report : AttestationReport) : Option Hash :=
  match report with
  | .SgxIas ra_report => (env.sgx_fields_from_ias ra_report).map env.measurement_hash
  | .SgxDcap quote => (env.sgx_fields_from_dcap quote).map env.measurement_hash

/-- The client attestation report carried by a `handover_start` request, as
decoded by gate 1 (`none` when absent or undecodable). -/
def decodedClientAttestation (env : Env) (req : HandoverChallengeResponse) :
    Option AttestationReport :=
  match req.attestation with
  | none => none
  | some raw =>
      match env.decode_attestation raw.encoded_report with
      | none => none
      | some attn => attn

/-- Gate 5 of `handover_start` (anti-rollback): in non-dev SGX mode, look up
the on-chain `added_at` timestamps of the server's and the client's
measurement hashes and refuse the handover unless the server's is strictly
older (`my_runtime_timestamp >= req_runtime_timestamp` is an error). -/
def rollbackCheck (env : Env) (p : Pflix) (dev_mode sgx : Bool)
    (attestation : Option AttestationReport) : Except String Unit :=
  if !dev_mode && sgx then
    match serverRuntimeHash env with
    | none => .error "Cannot read server pflix info"
    | some my_runtime_hash =>
        match p.runtime_state with
        | none => .error "Runtime not initialized"
        | some rs =>
            match env.get_pflix_bin_added_at rs.chain_storage my_runtime_hash with
            | none => .error "Server pflix not allowed on chain"
            | some my_runtime_timestamp =>
                match attestation with
                | none => .error "Client attestation not found"
                | some report =>
                    match clientRuntimeHash env report with
                    | none => .error "Invalid client RA report"
                    | some runtime_hash =>
                        match env.get_pflix_bin_added_at rs.chain_storage runtime_hash with
                        | none => .error "Client pflix not allowed on chain"
                        | some req_runtime_timestamp =>
                            if req_runtime_timestamp ≤ my_runtime_timestamp then
                              .error "Same pflix version or rollback ,No local handover provided"
                            else .ok ()
  else .ok ()

/-- The tail of `handover_start` after all gates: derive the shared secret
from the server identity key and the client's ephemeral ECDH public key,
encrypt the worker secret under a fresh IV, and (in non-dev SGX mode)
attach an attestation over the blake2-256 hash of the encoded payload. -/
def buildWorkerKeyResponse (env : Env) (p : Pflix) (dev_mode sgx : Bool)
    (challenge_handler : ChallengeHandlerInfo) : Except String HandoverWorkerKey :=
  let iv := env.generate_random_iv
  match env.persistent_runtime_data with
  | none => .error "Failed to read persistent runtime data"
  | some runtime_data =>
      match env.encrypt_secret_to runtime_data.identity_key challenge_handler.ecdh_pubkey
          runtime_data.sk iv with
      | none => .error "Failed to encrypt the worker key"
      | some pk_ct =>
          match p.runtime_state with
          | none => .error "Runtime not initialized"
          | some rs =>
              let encrypted_key : EncryptedKey :=
                { ecdh_pubkey := pk_ct.1, encrypted_key := pk_ct.2, iv := iv }
              let encrypted_worker_key : EncryptedWorkerKey :=
                { genesis_block_hash := rs.genesis_block_hash
                  dev_mode := dev_mode
                  encrypted_key := encrypted_key }
              let worker_key_hash := env.blake2_256 (env.encode_worker_key encrypted_worker_key)
              if !dev_mode && sgx then
                match (create_attestation_report_on (env.attempt_on worker_key_hash)
                    p.attestation_provider p.args.ra_max_retries env.now).1 with
                | .error e => .error e
                | .ok att =>
                    .ok { encrypted_worker_key := encrypted_worker_key, attestation := some att }
              else
                .ok { encrypted_worker_key := encrypted_worker_key, attestation := none }

/-- Gates 3–5 and the key-sharing tail of `handover_start` (no further state
mutation happens past the challenge consumption, so this part is pure):
local-attestation check, the 150-block challenge-age window, the
anti-rollback gate, then the encrypted worker key. -/
def handoverStartChecks (env : Env) (p : Pflix) (dev_mode sgx : Bool)
    (challenge_handler : ChallengeHandlerInfo) (attestation : Option AttestationReport)
    (block_number : Nat) : Except String HandoverWorkerKey :=
  match laCheck env dev_mode sgx challenge_handler with
  | .error e => .error e
  | .ok _ =>
      let challenge_height := challenge_handler.challenge.block_number
      if ¬(challenge_height ≤ block_number ∧ block_number - challenge_height ≤ 150) then
        .error "Outdated challenge"
      else
        match rollbackCheck env p dev_mode sgx attestation with
        | .error e => .error e
        | .ok _ => buildWorkerKeyResponse env p dev_mode sgx challenge_handler

/-- `handover_start` (key handover server): gate 1 (client RA report),
gate 2 (single-use challenge, consumed by `verify_worker_key_challenge`),
gates 3–5 and the encrypted worker key via `handoverStartChecks`.  Returns
the reply together with the updated `Pflix` state (the stored challenge is
cleared exactly when execution reaches gate 2). -/
def handover_start (env : Env) (p : Pflix) (req : HandoverChallengeResponse) :
    Except String HandoverWorkerKey × Pflix :=
  let dev_mode := p.dev_mode
  let sgx := in_sgx p
  match current_block env p with
  | .error e => (.error e, p)
  | .ok bn_ts =>
      match req.challenge_handler? with
      | none => (.error "Failed to decode the challenge handler", p)
      | some challenge_handler =>
          match clientRaCheck env dev_mode sgx req challenge_handler (bn_ts.2 / 1000) with
          | .error e => (.error e, p)
          | .ok attestation =>
              let vp := verify_worker_key_challenge p challenge_handler.challenge
              if vp.1 = false then (.error "Invalid challenge", vp.2)
              else
                (handoverStartChecks env vp.2 dev_mode sgx challenge_handler attestation bn_ts.1,
                 vp.2)

/-- `init_runtime`: one-shot bootstrap.  Fails when already initialized;
loads/generates the identity (optionally from a debug seed), records
`dev_mode`/`trusted_sk`/`attestation_provider` on `self`, rejects remote
attestation combined with a debug key, runs the platform quote test, builds
the light client and synchronizer, verifies the locally computed genesis
state root against the root declared in the genesis header (mismatch
aborts), then wires up `RuntimeState`, `System` and the cached
registration response. -/
def init_runtime (env : Env) (p : Pflix) (genesis : GenesisBlockInfo)
    (genesis_state : List (Bytes × Bytes)) (operator : Option Nat)
    (debug_set_key : Option Bytes) (attestation_provider : Option AttestationProvider)
    (grandpa_note_stalled : Bool) : Except String InitRuntimeResponse × Pflix :=
  if p.system.isSome then (.error "Runtime already initialized", p)
  else
    let genesis_block_hash := env.header_hash genesis.block_header
    let chain_storage := env.from_pairs genesis_state
    let rt_data_res : Except String RuntimeData :=
      match debug_set_key with
      | some raw_key =>
          match env.pair_from_seed raw_key with
          | .error e => .error e
          | .ok priv_key => env.init_runtime_data genesis_block_hash (some priv_key)
      | none => env.init_runtime_data genesis_block_hash none
    match rt_data_res with
    | .error e => (.error e, p)
    | .ok rt_data =>
        let p := { p with dev_mode := rt_data.dev_mode
                          trusted_sk := rt_data.trusted_sk
                          attestation_provider := attestation_provider }
        if p.dev_mode && attestation_provider.isSome then
          (.error "RA is disallowed when debug_set_key is enabled", p)
        else
          match env.quote_test attestation_provider with
          | .error e => (.error e, p)
          | .ok _ =>
              let storage_synchronizer :=
                env.new_synchronizer genesis.block_header genesis.authority_set genesis.proof
                  grandpa_note_stalled
              if env.root chain_storage ≠ genesis.block_header.state_root then
                (.error "state root mismatch", p)
              else
                let runtime_state : RuntimeState :=
                  { send_mq := []
                    recv_mq := []
                    synchronizer := storage_synchronizer
                    chain_storage := chain_storage
                    genesis_block_hash := genesis_block_hash }
                let system := env.new_system rt_data.dev_mode rt_data.identity_key rt_data.ecdh_key
                let runtime_info : WorkerRegistrationInfo :=
                  { version := env.compat_app_version
                    machine_id := p.machine_id
                    pubkey := rt_data.identity_key
                    ecdh_pubkey := rt_data.ecdh_key
                    genesis_block_hash := genesis_block_hash
                    features := [env.cpu_core_num, env.cpu_feature_level]
                    operator := operator }
                let resp : InitRuntimeResponse :=
                  { encoded_runtime_info := env.encode_runtime_info runtime_info
                    genesis_block_hash := genesis_block_hash
                    pubkey := rt_data.identity_key
                    ecdh_pubkey := rt_data.ecdh_key
                    attestation := none }
                (.ok resp, { p with runtime_info := some resp
                                    runtime_state := some runtime_state
                                    system := some system })

/-- `get_runtime_info`: return the cached registration response, first
invalidating its attestation on forced refresh, operator change, or when it
is more than one hour (3600 s) old; lazily regenerate it through
`create_attestation_report_on` — but only when attestation is allowed
(synchronizer state validated, and the identity key trusted/registered or
no attestation provider configured).  The third component records whether
the hardware attestation primitive was invoked during this call. -/
def get_runtime_info (env : Env) (p : Pflix) (refresh_ra : Bool) (operator : Option Nat) :
    Except String InitRuntimeResponse × Pflix × Bool :=
  match p.system with
  | none => (.error "Runtime not initialized", p, false)
  | some sys =>
      match p.runtime_state with
      | none => (.error "Runtime not initialized", p, false)
      | some rs =>
          let validated_identity_key := p.trusted_sk || sys.is_registered
          let validated_state := rs.synchronizer.state_validated
          let reset_operator := operator.isSome
          let p :=
            if reset_operator then
              { p with runtime_info := p.runtime_info.map fun r => env.apply_operator r operator }
            else p
          match p.runtime_info with
          | none => (.error "Uninitiated runtime info", p, false)
          | some cached0 =>
              let cached1 :=
                match cached0.attestation with
                | some att =>
                    if refresh_ra || reset_operator || decide (att.timestamp + 3600 < env.now) then
                      { cached0 with attestation := none }
                    else cached0
                | none => cached0
              let allow_attestation :=
                validated_state && (validated_identity_key || p.attestation_provider.isNone)
              if allow_attestation && cached1.attestation.isNone then
                let runtime_info_hash := env.blake2_256 cached1.encoded_runtime_info
                match (create_attestation_report_on (env.attempt_on runtime_info_hash)
                    p.attestation_provider p.args.ra_max_retries env.now).1 with
                | .error e => (.error e, { p with runtime_info := some cached1 }, true)
                | .ok report =>
                    match env.decode_attestation report.encoded_report with
                    | none =>
                        (.error "Failed to decode the created report",
                         { p with runtime_info := some cached1 }, true)
                    | some _ =>
                        let cached2 := { cached1 with attestation := some report }
                        (.ok cached2, { p with runtime_info := some cached2 }, true)
              else (.ok cached1, { p with runtime_info := some cached1 }, false)

/-- `load_storage_proof`: refuse below safe-mode level 2; otherwise load the
proof-derived entries into the chain storage of the initialized runtime. -/
def load_storage_proof (env : Env) (p : Pflix) (proof : List Bytes) :
    Except String Unit × Pflix :=
  if p.args.safe_mode_level < 2 then
    (.error "Can not load storage proof when safe_mode_level < 2", p)
  else
    match p.runtime_state with
    | none => (.error "Runtime not initialized", p)
    | some rs =>
        let rs1 := { rs with chain_storage := env.load_proof rs.chain_storage proof }
        (.ok (), { p with runtime_state := some rs1 })

/-- `load_chain_state`: manual out-of-band state load.  Refused when the
node policy forbids it, when the block number is 0, when runtime/system are
uninitialized, or when the worker is already registered in the supplied
state; otherwise the synchronizer is forced to the given block and the
chain storage replaced. -/
def load_chain_state (env : Env) (p : Pflix) (block : Nat)
    (storage : List (Bytes × Bytes)) : Except String Unit × Pflix :=
  if env.can_load_chain_state p = false then (.error "Can not load chain state", p)
  else if block = 0 then (.error "Can not load chain state from block 0", p)
  else
    match p.system with
    | none => (.error "System is uninitialized", p)
    | some sys =>
        match p.runtime_state with
        | none => (.error "Runtime is uninitialized", p)
        | some rs =>
            let chain_storage := env.from_pairs storage
            if env.is_worker_registered chain_storage sys.identity_pubkey then
              (.error "Failed to load state: the worker is already registered", p)
            else
              match env.assume_at_block rs.synchronizer block with
              | .error e => (.error ("Failed to set synchronizer state:" ++ e), p)
              | .ok sync1 =>
                  (.ok (),
                   { p with
                       runtime_state :=
                         some { rs with synchronizer := sync1, chain_storage := chain_storage }
                       system := some { sys with genesis_block := block } })

/-- `maybe_take_checkpoint`: a checkpoint is taken only when enabled and the
configured interval has elapsed since the last one. -/
def maybe_take_checkpoint (env : Env) (p : Pflix) : Except String Pflix :=
  if !p.args.enable_checkpoint then .ok p
  else if env.checkpoint_elapsed < p.args.checkpoint_interval then .ok p
  else env.take_checkpoint p

/-- `handle_inbound_messages`: requires an initialized runtime and system;
the per-block message extraction and dispatch into the application system
is external and summarized by `env.process_block`. -/
def handle_inbound_messages (env : Env) (p : Pflix) (block_number : Nat) :
    Except String Pflix :=
  match p.runtime_state with
  | none => .error "Runtime not initialized"
  | some _ =>
      match p.system with
      | none => .error "Runtime not initialized"
      | some _ => .ok (env.process_block p block_number)

/-- The per-block loop of `dispatch_blocks`: feed each block's changes to
the synchronizer (dropping proofs at safe-mode ≥ 2); at safe-mode ≥ 1 skip
message dispatch and checkpointing, otherwise purge the outbound queue,
dispatch inbound messages and maybe checkpoint (checkpoint failures are
swallowed). -/
def dispatchLoop (env : Env) (p : Pflix) : List BlockHeaderWithChanges → Except String Pflix
  | [] => .ok p
  | block :: rest =>
      match p.runtime_state with
      | none => .error "Runtime not initialized"
      | some rs =>
          let drop_proofs := 1 < p.args.safe_mode_level
          match env.feed_block rs.synchronizer rs.chain_storage block drop_proofs with
          | none => .error "feed_block failed"
          | some sync_st =>
              let rs1 := { rs with synchronizer := sync_st.1, chain_storage := sync_st.2 }
              let p1 := { p with runtime_state := some rs1 }
              if 0 < p1.args.safe_mode_level then dispatchLoop env p1 rest
              else
                let p2 := { p1 with runtime_state := some (env.purge_mq rs1) }
                match handle_inbound_messages env p2 block.number with
                | .error e => .error e
                | .ok p3 =>
                    let p4 := match maybe_take_checkpoint env p3 with
                      | .ok q => q
                      | .error _ => p3
                    dispatchLoop env p4 rest

/-- `dispatch_blocks`: drop all blocks below `next_block_number`
(idempotence against already-applied blocks), remember the number of the
last remaining block — or `next_block_number - 1` (a `u32` subtraction,
hence the `% 2^32`) when none remain — run the per-block loop, and report
that number as `synced_to`. -/
def dispatch_blocks (env : Env) (p : Pflix) (blocks : List BlockHeaderWithChanges) :
    Except String (Nat × Pflix) :=
  match p.runtime_state with
  | none => .error "Runtime not initialized"
  | some rs =>
      let counters := rs.synchronizer
      let retained := blocks.filter fun b => counters.next_block_number ≤ b.number
      let last_block :=
        match retained.getLast? with
        | some b => b.number
        | none => (counters.next_block_number + 4294967295) % 4294967296
      match dispatchLoop env p retained with
      | .error e => .error e
      | .ok p1 => .ok (last_block, p1)

/-! ## Concrete base instances used by witnesses and counterexamples -/

/-- A trivial environment; witnesses override the fields they need. -/
def env0 : Env :=
  { now := 0
    timestamp_now := fun _ => 0
    root := fun _ => 0
    from_pairs := fun _ => 0
    load_proof := fun s _ => s
    get_pflix_bin_added_at := fun _ _ => none
    is_worker_registered := fun _ _ => false
    blake2_256 := fun _ => 0
    encode_challenge_handler := fun _ => []
    encode_worker_key := fun _ => []
    encode_runtime_info := fun _ => []
    decode_attestation := fun _ => none
    validate_attestation_report := fun _ _ _ => false
    la_decode := fun _ => none
    la_verify := fun _ => false
    sgx_target_info_e := []
    sgx_report := fun _ => none
    measurement_hash := fun _ => 0
    sgx_fields_from_ias := fun _ => none
    sgx_fields_from_dcap := fun _ => none
    generate_random_iv := []
    persistent_runtime_data := none
    encrypt_secret_to := fun _ _ _ _ => none
    attempt_on := fun _ _ => none
    feed_block := fun _ _ _ _ => none
    purge_mq := fun rs => rs
    process_block := fun p _ => p
    checkpoint_elapsed := 0
    take_checkpoint := fun p => .ok p
    init_runtime_data := fun _ _ => .error "no runtime data"
    pair_from_seed := fun _ => .error "bad seed"
    quote_test := fun _ => .ok ()
    header_hash := fun _ => 0
    new_synchronizer := fun _ _ _ _ =>
      { next_header_number := 0, next_block_number := 0, state_validated := false }
    new_system := fun _ i _ =>
      { is_registered := false, now_ms := 0, genesis_block := 0, identity_pubkey := i }
    apply_operator := fun r _ => r
    nonce := []
    cpu_core_num := 0
    cpu_feature_level := 0
    compat_app_version := 0
    assume_at_block := fun s n => .ok { s with next_block_number := n }
    can_load_chain_state := fun _ => false }

def args0 : Args :=
  { safe_mode_level := 0
    ra_timeout := 0
    ra_max_retries := 0
    enable_checkpoint := false
    checkpoint_interval := 0 }

def sync0 : SyncState :=
  { next_header_number := 1, next_block_number := 1, state_validated := false }

def rstate0 : RuntimeState :=
  { send_mq := []
    recv_mq := []
    synchronizer := sync0
    chain_storage := 0
    genesis_block_hash := 0 }

def system0 : SystemState :=
  { is_registered := false, now_ms := 0, genesis_block := 0, identity_pubkey := 0 }

def pflix0 : Pflix :=
  { runtime_state := none
    system := none
    dev_mode := false
    trusted_sk := false
    attestation_provider := none
    runtime_info := none
    handover_last_challenge := none
    handover_ecdh_key := none
    endpoint := none
    args := args0
    machine_id := [] }

def challenge0 : HandoverChallenge :=
  { sgx_target_info := [], block_number := 0, now := 0, dev_mode := false, nonce := [7] }

/-! ## C1 and C9: single-use handover challenge -/

/-- C1: `verify_worker_key_challenge` returns true at most once per issued
challenge — the stored challenge is taken on the first call, so if the
first call with challenge `c` returns true, a second call with the same
`c` (with no intervening `get_worker_key_challenge`) returns false. -/
theorem challenge_consumed_once (p : Pflix) (c : HandoverChallenge)
    (_h : (verify_worker_key_challenge p c).1 = true) :
    (verify_worker_key_challenge (verify_worker_key_challenge p c).2 c).1 = false := by
  simp [verify_worker_key_challenge]

/-- Witness for C1 at a concrete state holding the challenge. -/
theorem challenge_consumed_once_witness :
    (verify_worker_key_challenge
        (verify_worker_key_challenge
          { pflix0 with handover_last_challenge := some challenge0 } challenge0).2
        challenge0).1 = false :=
  challenge_consumed_once { pflix0 with handover_last_challenge := some challenge0 }
    challenge0 (by decide)

/-- C9: every call to `verify_worker_key_challenge` clears the stored
last-issued challenge — even a call returning false — so any subsequent
verification (in particular of the genuinely issued challenge) fails. -/
theorem challenge_cleared_even_on_mismatch (p : Pflix) (c c2 : HandoverChallenge) :
    (verify_worker_key_challenge p c).2.handover_last_challenge = none ∧
      (verify_worker_key_challenge (verify_worker_key_challenge p c).2 c2).1 = false := by
  simp [verify_worker_key_challenge]

/-! ## C7: load_storage_proof is gated on safe-mode level 2 -/

/-- The state of `p` after its chain storage (inside runtime state `rs`) is
replaced by `cs`. -/
def withStorage (p : Pflix) (rs : RuntimeState) (cs : ChainStorage) : Pflix :=
  { p with runtime_state := some { rs with chain_storage := cs } }

/-- C7: with an initialized runtime, `load_storage_proof` fails and leaves
the state untouched at safe-mode level 0 or 1, and succeeds — loading the
proof-derived entries into chain storage — at level 2 or above. -/
theorem load_storage_proof_safe_mode_gate (env : Env) (p : Pflix) (rs : RuntimeState)
    (proof : List Bytes) (h : p.runtime_state = some rs) :
    (p.args.safe_mode_level < 2 →
        load_storage_proof env p proof =
          (.error "Can not load storage proof when safe_mode_level < 2", p)) ∧
      (2 ≤ p.args.safe_mode_level →
        load_storage_proof env p proof =
          (.ok (), withStorage p rs (env.load_proof rs.chain_storage proof))) := by
  constructor
  · intro hlt
    simp [load_storage_proof, hlt]
  · intro hge
    simp [load_storage_proof, withStorage, h, Nat.not_lt.mpr hge]

/-- Witness for C7: a denied level-1 call and a successful level-2 call. -/
theorem load_storage_proof_safe_mode_gate_witness :
    (load_storage_proof env0
        { pflix0 with runtime_state := some rstate0, args := { args0 with safe_mode_level := 1 } }
        [] =
      (.error "Can not load storage proof when safe_mode_level < 2",
       { pflix0 with runtime_state := some rstate0,
                     args := { args0 with safe_mode_level := 1 } })) ∧
      (load_storage_proof env0
          { pflix0 with runtime_state := some rstate0,
                        args := { args0 with safe_mode_level := 2 } }
          [] =
        (.ok (),
         withStorage
           { pflix0 with runtime_state := some rstate0,
                         args := { args0 with safe_mode_level := 2 } }
           rstate0 (env0.load_proof rstate0.chain_storage []))) :=
  ⟨(load_storage_proof_safe_mode_gate env0 _ rstate0 [] rfl).1 (by decide),
   (load_storage_proof_safe_mode_gate env0 _ rstate0 [] rfl).2 (by decide)⟩

/-! ## C10: load_chain_state rejects block 0 -/

/-! ## C5: dispatch_blocks ignores already-applied blocks -/

/-- C5: with an initialized runtime whose `next_block_number` is a positive
`u32`, dispatching a batch in which every block number is strictly below
`next_block_number` changes no state at all and reports
`synced_to = next_block_number - 1`, the previously synced block. -/
theorem dispatch_blocks_old_blocks_noop (env : Env) (p : Pflix) (rs : RuntimeState)
    (blocks : List BlockHeaderWithChanges) (h : p.runtime_state = some rs)
    (hpos : 1 ≤ rs.synchronizer.next_block_number)
    (hu32 : rs.synchronizer.next_block_number < 4294967296)
    (hold : ∀ b ∈ blocks, b.number < rs.synchronizer.next_block_number) :
    dispatch_blocks env p blocks = .ok (rs.synchronizer.next_block_number - 1, p) := by
  have hfilter :
      blocks.filter (fun b => rs.synchronizer.next_block_number ≤ b.number) = [] := by
    rw [List.filter_eq_nil_iff]
    intro b hb
    have := hold b hb
    simp only [decide_eq_true_eq]
    omega
  rw [dispatch_blocks, h]
  simp only [hfilter, List.getLast?_nil, dispatchLoop]
  have hmod : (rs.synchronizer.next_block_number + 4294967295) % 4294967296 =
      rs.synchronizer.next_block_number - 1 := by omega
  simp [hmod]

/-- A runtime state already synced to block 4 (`next_block_number = 5`). -/
def rstate5 : RuntimeState :=
  { rstate0 with synchronizer := { sync0 with next_block_number := 5 } }

/-- A `Pflix` holding `rstate5`. -/
def p5 : Pflix := { pflix0 with runtime_state := some rstate5 }

/-- Witness for C5: a runtime synced to block 4 (next block 5) given blocks
1, 2 and 3 again reports `synced_to = 4` and is unchanged. -/
theorem dispatch_blocks_old_blocks_noop_witness :
    dispatch_blocks env0 p5
        [{ number := 1, changes := [] }, { number := 2, changes := [] },
         { number := 3, changes := [] }] =
      .ok (4, p5) :=
  dispatch_blocks_old_blocks_noop env0 p5 rstate5 _ rfl (by decide) (by decide)
    (by intro b hb; fin_cases hb <;> decide)

/-! ## C3: handover challenge age window -/

/-- Gates 3 and onward reject a challenge outside the 150-block window. -/
theorem handoverStartChecks_outdated (env : Env) (p : Pflix) (dev_mode sgx : Bool)
    (ch : ChallengeHandlerInfo) (attn : Option AttestationReport) (block_number : Nat)
    (hage : ¬(ch.challenge.block_number ≤ block_number ∧
        block_number - ch.challenge.block_number ≤ 150)) :
    isErr (handoverStartChecks env p dev_mode sgx ch attn block_number) = true := by
  unfold handoverStartChecks
  split
  · simp [isErr]
  · rw [if_pos hage]
    simp [isErr]

/-- C3: `handover_start` fails for every challenge whose block number is
not within 150 blocks of the current block number (the last applied block,
`next_block_number - 1`) — in particular when the current block exceeds the
challenge's by more than 150 — and this check applies whatever the dev-mode
flag and attestation provider are. -/
theorem handover_start_rejects_outdated_challenge (env : Env) (p : Pflix)
    (req : HandoverChallengeResponse) (rs : RuntimeState) (ch : ChallengeHandlerInfo)
    (hrs : p.runtime_state = some rs)
    (hch : req.challenge_handler? = some ch)
    (hage : ¬(ch.challenge.block_number ≤ rs.synchronizer.next_block_number - 1 ∧
        rs.synchronizer.next_block_number - 1 - ch.challenge.block_number ≤ 150)) :
    isErr (handover_start env p req).1 = true := by
  have hcb : current_block env p =
      .ok (rs.synchronizer.next_block_number - 1, env.timestamp_now rs.chain_storage) := by
    simp [current_block, hrs]
  unfold handover_start
  rw [hcb, hch]
  dsimp only
  split
  · simp [isErr]
  · split
    · simp [isErr]
    · exact handoverStartChecks_outdated _ _ _ _ _ _ _ hage

/-- A runtime state at block 199 (`next_block_number = 200`). -/
def rstate200 : RuntimeState :=
  { rstate0 with synchronizer := { sync0 with next_block_number := 200 } }

/-- A dev-mode `Pflix` holding `rstate200`. -/
def p200 : Pflix := { pflix0 with runtime_state := some rstate200, dev_mode := true }

/-- A challenge handler answering a challenge issued at block 10. -/
def oldChallengeHandler : ChallengeHandlerInfo :=
  { challenge := { challenge0 with block_number := 10 }
    sgx_local_report := []
    ecdh_pubkey := 0 }

/-- Witness for C3: a runtime at block 199 (next block 200) rejects a
challenge issued at block 10 (189 blocks old), here in dev mode. -/
theorem handover_start_rejects_outdated_challenge_witness :
    isErr (handover_start env0 p200
        { challenge_handler? := some oldChallengeHandler, attestation := none }).1 = true :=
  handover_start_rejects_outdated_challenge env0 p200
    { challenge_handler? := some oldChallengeHandler, attestation := none }
    rstate200 oldChallengeHandler rfl rfl (by decide)

/-! ## C2: anti-rollback gate of handover_start -/

/-- In non-dev SGX mode, the rollback gate fails whenever the server's
recorded timestamp is at least every recorded timestamp (in particular the
client's). -/
theorem rollbackCheck_errs_when_server_not_older (env : Env) (p : Pflix)
    (dev_mode sgx : Bool) (attn : Option AttestationReport)
    (hmode : (!dev_mode && sgx) = true)
    (hmax : ∀ s myh h tmy t, serverRuntimeHash env = some myh →
        env.get_pflix_bin_added_at s myh = some tmy →
        env.get_pflix_bin_added_at s h = some t → t ≤ tmy) :
    isErr (rollbackCheck env p dev_mode sgx attn) = true := by
  unfold rollbackCheck
  rw [if_pos hmode]
  split
  · simp [isErr]
  case h_2 myh hsrv =>
    split
    · simp [isErr]
    case h_2 rs hrs =>
      split
      · simp [isErr]
      case h_2 tmy hmy =>
        split
        · simp [isErr]
        case h_2 rep hrep =>
          split
          · simp [isErr]
          case h_2 h hch =>
            split
            · simp [isErr]
            case h_2 treq hreq =>
              rw [if_pos (hmax rs.chain_storage myh h tmy treq hsrv hmy hreq)]
              simp [isErr]

/-- In non-dev SGX mode, the rollback gate passes only when both
measurement timestamps are on chain and the server's is strictly older. -/
theorem rollbackCheck_ok_means_strictly_older (env : Env) (p : Pflix)
    (dev_mode sgx : Bool) (attn : Option AttestationReport)
    (hmode : (!dev_mode && sgx) = true)
    (hok : rollbackCheck env p dev_mode sgx attn = .ok ()) :
    ∃ rs rep h myh tmy treq,
      p.runtime_state = some rs ∧
      attn = some rep ∧
      clientRuntimeHash env rep = some h ∧
      serverRuntimeHash env = some myh ∧
      env.get_pflix_bin_added_at rs.chain_storage myh = some tmy ∧
      env.get_pflix_bin_added_at rs.chain_storage h = some treq ∧
      tmy < treq := by
  unfold rollbackCheck at hok
  rw [if_pos hmode] at hok
  split at hok
  · exact absurd hok (by simp)
  next myh hsrv =>
    split at hok
    · exact absurd hok (by simp)
    next rs hrs =>
      split at hok
      · exact absurd hok (by simp)
      next tmy hmy =>
        cases attn with
        | none => exact absurd hok (by simp)
        | some report =>
          dsimp only at hok
          split at hok
          · exact absurd hok (by simp)
          next h hch =>
            split at hok
            · exact absurd hok (by simp)
            next treq hreq =>
              split at hok
              · exact absurd hok (by simp)
              next hlt =>
                exact ⟨rs, report, h, myh, tmy, treq, hrs, rfl, hch, hsrv, hmy, hreq,
                  by omega⟩

/-- In non-dev SGX mode, a passing gate 1 means the request carried a
decodable attestation whose decoded value gate 5 will see. -/
theorem clientRaCheck_ok_decoded (env : Env) (dev_mode sgx : Bool)
    (req : HandoverChallengeResponse) (ch : ChallengeHandlerInfo) (block_sec : Nat)
    (attn : Option AttestationReport)
    (hmode : (!dev_mode && sgx) = true)
    (hok : clientRaCheck env dev_mode sgx req ch block_sec = .ok attn) :
    decodedClientAttestation env req = attn := by
  unfold clientRaCheck at hok
  rw [if_pos hmode] at hok
  dsimp only at hok
  split at hok
  · exact absurd hok (by simp)
  next raw hraw =>
    split at hok
    · exact absurd hok (by simp)
    next attn1 hdec =>
      split at hok
      · unfold decodedClientAttestation
        rw [hraw]
        dsimp only
        rw [hdec]
        exact Except.ok.inj hok
      · exact absurd hok (by simp)

/-- C2: in non-dev mode with an SGX provider, `handover_start` fails
whenever the server's on-chain build timestamp is greater than or equal to
the (indeed, any) recorded timestamp — in particular the client's — and a
successful call is possible only when both build timestamps are recorded on
chain and the server's is strictly older than the client's. -/
theorem handover_start_rollback_gate (env : Env) (p : Pflix)
    (req : HandoverChallengeResponse)
    (hdev : p.dev_mode = false) (hsgx : in_sgx p = true) :
    ((∀ s myh h tmy t, serverRuntimeHash env = some myh →
        env.get_pflix_bin_added_at s myh = some tmy →
        env.get_pflix_bin_added_at s h = some t → t ≤ tmy) →
      isErr (handover_start env p req).1 = true) ∧
    (∀ reply, (handover_start env p req).1 = .ok reply →
      ∃ rs rep h myh tmy treq,
        p.runtime_state = some rs ∧
        decodedClientAttestation env req = some rep ∧
        clientRuntimeHash env rep = some h ∧
        serverRuntimeHash env = some myh ∧
        env.get_pflix_bin_added_at rs.chain_storage myh = some tmy ∧
        env.get_pflix_bin_added_at rs.chain_storage h = some treq ∧
        tmy < treq) := by
  have hmode : (!p.dev_mode && in_sgx p) = true := by rw [hdev, hsgx]; rfl
  constructor
  · intro hmax
    unfold handover_start
    dsimp only
    split
    · simp [isErr]
    case h_2 bn_ts hcb =>
      split
      · simp [isErr]
      case h_2 ch hch =>
        split
        · simp [isErr]
        case h_2 attn hra =>
          split
          · simp [isErr]
          case isFalse hvc =>
            dsimp only
            unfold handoverStartChecks
            have herr := rollbackCheck_errs_when_server_not_older env
              (verify_worker_key_challenge p ch.challenge).2 p.dev_mode (in_sgx p)
              attn hmode hmax
            cases hrc : rollbackCheck env (verify_worker_key_challenge p ch.challenge).2
                p.dev_mode (in_sgx p) attn with
            | error e =>
                split
                · simp [isErr]
                · dsimp only
                  split <;> simp [isErr]
            | ok u =>
                rw [hrc] at herr
                exact absurd herr (by simp [isErr])
  · intro reply hok
    unfold handover_start at hok
    dsimp only at hok
    split at hok
    · exact absurd hok (by simp)
    next bn_ts hcb =>
      split at hok
      · exact absurd hok (by simp)
      next ch hch =>
        split at hok
        · exact absurd hok (by simp)
        next attn hra =>
          split at hok
          · exact absurd hok (by simp)
          next hvc =>
            dsimp only at hok
            unfold handoverStartChecks at hok
            cases hrc : rollbackCheck env (verify_worker_key_challenge p ch.challenge).2
                p.dev_mode (in_sgx p) attn with
            | error e =>
                rw [hrc] at hok
                split at hok
                · exact absurd hok (by simp)
                next a hla =>
                  dsimp only at hok
                  split at hok <;> exact absurd hok (by simp)
            | ok u =>
                have hdecoded := clientRaCheck_ok_decoded env p.dev_mode (in_sgx p)
                  req ch (bn_ts.2 / 1000) attn hmode hra
                rcases u
                have hroll := rollbackCheck_ok_means_strictly_older env
                  (verify_worker_key_challenge p ch.challenge).2 p.dev_mode (in_sgx p)
                  attn hmode hrc
                rcases hroll with ⟨rs, rep, h, myh, tmy, treq, hrs, hrep, hchh, hsrv,
                  hmy, hreq, hlt⟩
                refine ⟨rs, rep, h, myh, tmy, treq, ?_, ?_, hchh, hsrv, hmy, hreq, hlt⟩
                · simpa [verify_worker_key_challenge] using hrs
                · rw [hdecoded, hrep]

/-- Environment for the C2 witness: every measurement hash is recorded on
chain at timestamp 5, so the server build is never strictly older. -/
def envTs : Env := { env0 with get_pflix_bin_added_at := fun _ _ => some 5 }

/-- A non-dev server with an IAS provider and an initialized runtime. -/
def pSgx : Pflix :=
  { pflix0 with attestation_provider := some AttestationProvider.Ias,
                runtime_state := some rstate0 }

/-- Witness for C2: with all recorded build timestamps equal (so the
server's is not strictly older than any client's), `handover_start` fails. -/
theorem handover_start_rollback_gate_witness :
    isErr (handover_start envTs pSgx
        { challenge_handler? := some oldChallengeHandler, attestation := none }).1 = true :=
  (handover_start_rollback_gate envTs pSgx
      { challenge_handler? := some oldChallengeHandler, attestation := none }
      rfl rfl).1
    (by
      intro s myh h tmy t hs h1 h2
      have e1 : (5 : Nat) = tmy := Option.some.inj h1
      have e2 : (5 : Nat) = t := Option.some.inj h2
      omega)

/-! ## C4: init_runtime on a tampered genesis state (corrected) -/

/-- Environment for C4: loading runtime data with a debug seed yields a
dev-mode identity, and the locally computed genesis root is 0. -/
def envInit : Env :=
  { env0 with
      init_runtime_data := fun _ k =>
        .ok { sk := 1, identity_key := 1, ecdh_key := 1, dev_mode := k.isSome,
              trusted_sk := true }
      pair_from_seed := fun _ => .ok 1 }

/-- A genesis block whose header declares state root 1 (the locally
computed root will be 0, a mismatch). -/
def genesisTampered : GenesisBlockInfo :=
  { block_header := { parent_hash := 0, number := 0, state_root := 1, extrinsics_root := 0 }
    authority_set := []
    proof := [] }

/-- Counterexample to C4 as stated: on a genesis state-root mismatch,
`init_runtime` does fail, but the `Pflix` aggregate is not left entirely
unchanged — `dev_mode` (and `trusted_sk`, `attestation_provider`) are
overwritten before the root check runs.  Here a debug-seed call flips
`dev_mode` from `false` to `true` although initialization failed. -/
theorem init_runtime_mutates_flags_on_root_mismatch :
    isErr (init_runtime envInit pflix0 genesisTampered [] none (some [1]) none false).1 =
        true ∧
      (init_runtime envInit pflix0 genesisTampered [] none (some [1]) none false).2.dev_mode ≠
        pflix0.dev_mode := by
  constructor
  · rfl
  · decide

/-- C4 (amended): if the root computed over the supplied genesis key/value
pairs differs from the state root declared in the genesis header,
`init_runtime` returns an error and constructs no runtime:
`runtime_state`, `system` and the cached `runtime_info` are exactly as
before the call (as are the handover slots, endpoint, args, machine id) —
however the identity flags `dev_mode`/`trusted_sk` and
`attestation_provider`, which the source overwrites before the root check,
may already have changed. -/
theorem init_runtime_root_mismatch_aborts (env : Env) (p : Pflix)
    (genesis : GenesisBlockInfo) (genesis_state : List (Bytes × Bytes))
    (operator : Option Nat) (debug_set_key : Option Bytes)
    (attestation_provider : Option AttestationProvider) (grandpa_note_stalled : Bool)
    (hroot : env.root (env.from_pairs genesis_state) ≠ genesis.block_header.state_root) :
    isErr (init_runtime env p genesis genesis_state operator debug_set_key
        attestation_provider grandpa_note_stalled).1 = true ∧
      (init_runtime env p genesis genesis_state operator debug_set_key
          attestation_provider grandpa_note_stalled).2.runtime_state = p.runtime_state ∧
      (init_runtime env p genesis genesis_state operator debug_set_key
          attestation_provider grandpa_note_stalled).2.system = p.system ∧
      (init_runtime env p genesis genesis_state operator debug_set_key
          attestation_provider grandpa_note_stalled).2.runtime_info = p.runtime_info ∧
      (init_runtime env p genesis genesis_state operator debug_set_key
          attestation_provider grandpa_note_stalled).2.handover_last_challenge =
        p.handover_last_challenge ∧
      (init_runtime env p genesis genesis_state operator debug_set_key
          attestation_provider grandpa_note_stalled).2.handover_ecdh_key =
        p.handover_ecdh_key ∧
      (init_runtime env p genesis genesis_state operator debug_set_key
          attestation_provider grandpa_note_stalled).2.endpoint = p.endpoint ∧
      (init_runtime env p genesis genesis_state operator debug_set_key
          attestation_provider grandpa_note_stalled).2.args = p.args ∧
      (init_runtime env p genesis genesis_state operator debug_set_key
          attestation_provider grandpa_note_stalled).2.machine_id = p.machine_id := by
  unfold init_runtime
  split
  · simp [isErr]
  next hsys =>
    dsimp only
    split
    · simp [isErr]
    next rt_data hrt =>
      split
      · simp [isErr]
      next hdevra =>
        split
        · simp [isErr]
        next u hquote =>
          exact ⟨rfl, rfl, rfl, rfl, rfl, rfl, rfl, rfl, rfl⟩

/-- Witness for C4's amended theorem: the counterexample state, on which
the failed call leaves `runtime_state`, `system` and `runtime_info`
untouched (all still `none`). -/
theorem init_runtime_root_mismatch_aborts_witness :
    isErr (init_runtime envInit pflix0 genesisTampered [] none (some [1]) none false).1 =
        true ∧
      (init_runtime envInit pflix0 genesisTampered [] none (some [1]) none
          false).2.runtime_state = pflix0.runtime_state :=
  ⟨(init_runtime_root_mismatch_aborts envInit pflix0 genesisTampered [] none (some [1])
      none false (by decide)).1,
   (init_runtime_root_mismatch_aborts envInit pflix0 genesisTampered [] none (some [1])
      none false (by decide)).2.1⟩

/-- When every attempt from `tried` through `max_retries` fails, the loop
returns `none` after sleeping `min (2^i) 8` seconds after each failed
attempt except the last. -/
theorem createLoop_all_fail (attempt : Nat → Option Bytes) (max_retries : Nat) :
    ∀ n tried, max_retries - tried = n → tried ≤ max_retries →
      (∀ i, tried ≤ i → i ≤ max_retries → attempt i = none) →
      createLoop attempt max_retries tried =
        (none, (List.range' tried (max_retries - tried)).map fun i => min (2 ^ i) 8) := by
  intro n
  induction n with
  | zero =>
      intro tried hn hle hfail
      have htm : tried = max_retries := by omega
      subst htm
      rw [createLoop]
      simp [hfail tried le_rfl le_rfl]
  | succ m ih =>
      intro tried hn hle hfail
      have hlt : tried < max_retries := by omega
      rw [createLoop]
      simp only [hfail tried le_rfl hle]
      rw [dif_neg (by omega)]
      rw [ih (tried + 1) (by omega) (by omega) (fun i hi1 hi2 => hfail i (by omega) hi2)]
      have hr : max_retries - tried = (max_retries - (tried + 1)) + 1 := by omega
      rw [hr, List.range'_succ]
      simp

/-- When attempt `k` (with `k ≤ max_retries`) is the first success, the
loop returns its report after exactly the sleeps for the `k` prior
failures. -/
theorem createLoop_first_success (attempt : Nat → Option Bytes) (max_retries : Nat)
    (r : Bytes) :
    ∀ n tried k, k - tried = n → tried ≤ k → k ≤ max_retries → attempt k = some r →
      (∀ j, tried ≤ j → j < k → attempt j = none) →
      createLoop attempt max_retries tried =
        (some r, (List.range' tried (k - tried)).map fun i => min (2 ^ i) 8) := by
  intro n
  induction n with
  | zero =>
      intro tried k hn hle hkm hk hfail
      have htk : tried = k := by omega
      rw [createLoop]
      simp [htk, hk]
  | succ m ih =>
      intro tried k hn hle hkm hk hfail
      have hlt : tried < k := by omega
      rw [createLoop]
      simp only [hfail tried le_rfl hlt]
      rw [dif_neg (by omega)]
      rw [ih (tried + 1) k (by omega) (by omega) hkm hk
        (fun j hj1 hj2 => hfail j (by omega) hj2)]
      have hr : k - tried = (k - (tried + 1)) + 1 := by omega
      rw [hr, List.range'_succ]
      simp

/-! ## C6: the attestation cache of get_runtime_info (corrected) -/

/-- A cached attestation report created at time 0. -/
def att6 : Attestation :=
  { version := 1, provider := none, encoded_report := [], timestamp := 0 }

/-- A cached registration response carrying `att6`. -/
def resp6 : InitRuntimeResponse :=
  { encoded_runtime_info := [], genesis_block_hash := 0, pubkey := 0, ecdh_pubkey := 0,
    attestation := some att6 }

/-- An initialized node whose synchronizer state is not yet validated (so
attestation is not allowed), holding the cached response `resp6`. -/
def cp6 : Pflix :=
  { pflix0 with system := some system0, runtime_state := some rstate0,
                runtime_info := some resp6 }

/-- Counterexample to C6 as stated: `force_refresh = true` with a cached
report present discards the cache but does **not** generate a fresh report
— here the synchronizer state is not validated, so the call returns with no
attestation and without invoking the attestation primitive. -/
theorem get_runtime_info_refresh_without_regen :
    resp6.attestation.isSome = true ∧
      (get_runtime_info env0 cp6 true none).1 =
        .ok { resp6 with attestation := none } ∧
      (get_runtime_info env0 cp6 true none).2.2 = false :=
  ⟨rfl, rfl, rfl⟩

/-- The fresh report produced by a first-attempt success `rb` of the
attestation primitive. -/
def freshReport (env : Env) (p : Pflix) (rb : Bytes) : Attestation :=
  { version := 1, provider := p.attestation_provider, encoded_report := rb,
    timestamp := env.now }

/-- C6 (amended): `get_runtime_info` discards the cached attestation on
each of the three triggers — `force_refresh` set, a new operator supplied,
or the cached report more than one hour (3600 s) old — but generates a
fresh one only when attestation is allowed (synchronizer state validated
and the identity key trusted/registered, or no provider configured); when
not allowed, the call returns with no attestation and does not invoke the
attestation primitive.  Called within the freshness window with no refresh
and no operator change, it returns the cached attestation unchanged
without invoking the primitive. -/
theorem get_runtime_info_cache_policy (env : Env) (p : Pflix) (sys : SystemState)
    (rs : RuntimeState) (resp : InitRuntimeResponse) (att : Attestation)
    (h1 : p.system = some sys) (h2 : p.runtime_state = some rs)
    (h3 : p.runtime_info = some resp) (hatt : resp.attestation = some att) :
    ((rs.synchronizer.state_validated &&
          ((p.trusted_sk || sys.is_registered) || p.attestation_provider.isNone)) = false →
        get_runtime_info env p true none =
          (.ok { resp with attestation := none },
           { p with runtime_info := some { resp with attestation := none } }, false)) ∧
      (∀ op,
        (rs.synchronizer.state_validated &&
            ((p.trusted_sk || sys.is_registered) || p.attestation_provider.isNone)) = false →
        ∃ r, get_runtime_info env p false (some op) =
            (.ok r, { p with runtime_info := some r }, false) ∧ r.attestation = none) ∧
      ((rs.synchronizer.state_validated &&
          ((p.trusted_sk || sys.is_registered) || p.attestation_provider.isNone)) = false →
        att.timestamp + 3600 < env.now →
        get_runtime_info env p false none =
          (.ok { resp with attestation := none },
           { p with runtime_info := some { resp with attestation := none } }, false)) ∧
      (∀ rb d,
        (rs.synchronizer.state_validated &&
            ((p.trusted_sk || sys.is_registered) || p.attestation_provider.isNone)) = true →
        env.attempt_on (env.blake2_256 resp.encoded_runtime_info) 0 = some rb →
        env.decode_attestation rb = some d →
        get_runtime_info env p true none =
          (.ok { resp with attestation := some (freshReport env p rb) },
           { p with runtime_info := some { resp with attestation := some (freshReport env p rb) } },
           true)) ∧
      (∀ rb d,
        (rs.synchronizer.state_validated &&
            ((p.trusted_sk || sys.is_registered) || p.attestation_provider.isNone)) = true →
        att.timestamp + 3600 < env.now →
        env.attempt_on (env.blake2_256 resp.encoded_runtime_info) 0 = some rb →
        env.decode_attestation rb = some d →
        get_runtime_info env p false none =
          (.ok { resp with attestation := some (freshReport env p rb) },
           { p with runtime_info := some { resp with attestation := some (freshReport env p rb) } },
           true)) ∧
      (env.now ≤ att.timestamp + 3600 →
        get_runtime_info env p false none = (.ok resp, p, false)) := by
  refine ⟨?_, ?_, ?_, ?_, ?_, ?_⟩
  · intro hallow
    unfold get_runtime_info
    simp [h1, h2, h3, hatt, hallow]
  · intro op hallow
    cases hc : (env.apply_operator resp (some op)).attestation with
    | some a =>
        refine ⟨{ env.apply_operator resp (some op) with attestation := none }, ?_, rfl⟩
        unfold get_runtime_info
        simp [h1, h2, h3, hallow, hc]
    | none =>
        refine ⟨env.apply_operator resp (some op), ?_, hc⟩
        unfold get_runtime_info
        simp [h1, h2, h3, hallow, hc]
  · intro hallow hstale
    have hdec : decide (att.timestamp + 3600 < env.now) = true := decide_eq_true hstale
    unfold get_runtime_info
    simp [h1, h2, h3, hatt, hallow, hdec]
  · intro rb d hallow hrb hdec
    have hloop := createLoop_first_success
      (env.attempt_on (env.blake2_256 resp.encoded_runtime_info)) p.args.ra_max_retries rb
      0 0 0 rfl le_rfl (Nat.zero_le _) hrb (fun j hj1 hj2 => absurd hj2 (by omega))
    simp only [Nat.sub_self, List.range'_zero, List.map_nil] at hloop
    unfold get_runtime_info
    unfold create_attestation_report_on
    simp [h1, h2, h3, hatt, hallow, hloop, hdec, freshReport]
  · intro rb d hallow hstale hrb hdec
    have hdecs : decide (att.timestamp + 3600 < env.now) = true := decide_eq_true hstale
    have hloop := createLoop_first_success
      (env.attempt_on (env.blake2_256 resp.encoded_runtime_info)) p.args.ra_max_retries rb
      0 0 0 rfl le_rfl (Nat.zero_le _) hrb (fun j hj1 hj2 => absurd hj2 (by omega))
    simp only [Nat.sub_self, List.range'_zero, List.map_nil] at hloop
    unfold get_runtime_info
    unfold create_attestation_report_on
    simp [h1, h2, h3, hatt, hallow, hdecs, hloop, hdec, freshReport]
  · intro hfresh
    have hstale : decide (att.timestamp + 3600 < env.now) = false := by
      simp only [decide_eq_false_iff_not, not_lt]
      exact hfresh
    obtain ⟨prs, psys, pdev, ptr, pap, pri, phc, phe, pep, pargs, pmid⟩ := p
    simp only [Pflix.mk.injEq] at h1 h2 h3
    subst h1
    subst h2
    subst h3
    unfold get_runtime_info
    simp [hatt, hstale]

/-- An environment whose wall clock is at 4000 s, making the time-0 report
`att6` more than one hour old. -/
def env6s : Env := { env0 with now := 4000 }

/-- Witness for C6's amended theorem: on the counterexample node the
refresh call discards without regenerating; a call at `now = 4000` against
the time-0 cached report (over an hour old) likewise discards it without
regenerating; and a fresh-window call (`now = 0`, report age 0) returns
the cached report without invoking the primitive. -/
theorem get_runtime_info_cache_policy_witness :
    (get_runtime_info env0 cp6 true none =
        (.ok { resp6 with attestation := none },
         { cp6 with runtime_info := some { resp6 with attestation := none } }, false)) ∧
      (get_runtime_info env6s cp6 false none =
        (.ok { resp6 with attestation := none },
         { cp6 with runtime_info := some { resp6 with attestation := none } }, false)) ∧
      (get_runtime_info env0 cp6 false none = (.ok resp6, cp6, false)) :=
  ⟨(get_runtime_info_cache_policy env0 cp6 system0 rstate0 resp6 att6
      rfl rfl rfl rfl).1 rfl,
   (get_runtime_info_cache_policy env6s cp6 system0 rstate0 resp6 att6
      rfl rfl rfl rfl).2.2.1 rfl (by decide),
   (get_runtime_info_cache_policy env0 cp6 system0 rstate0 resp6 att6
      rfl rfl rfl rfl).2.2.2.2.2 (by decide)⟩

/-! ## C8: attestation-report creation retry/back-off -/

/-- C8: `create_attestation_report_on` makes at most `max_retries + 1`
attempts: if all of attempts `0..max_retries` fail it returns an error
after sleeping `min (2^i) 8` seconds between successive attempts (so
1, 2, 4, 8 seconds, capped at 8 from then on); if attempt `k` is the first
success it returns that attempt's report (timestamped now, version 1)
after the `k` back-off sleeps. -/
theorem create_attestation_report_retries (attempt : Nat → Option Bytes)
    (attestation_provider : Option AttestationProvider) (max_retries now : Nat) :
    ((∀ i, i ≤ max_retries → attempt i = none) →
        create_attestation_report_on attempt attestation_provider max_retries now =
          (.error "Failed to create attestation report",
           (List.range max_retries).map fun i => min (2 ^ i) 8)) ∧
      (∀ k res, k ≤ max_retries → attempt k = some res →
        (∀ j, j < k → attempt j = none) →
        create_attestation_report_on attempt attestation_provider max_retries now =
          (.ok { version := 1, provider := attestation_provider, encoded_report := res,
                 timestamp := now },
           (List.range k).map fun i => min (2 ^ i) 8)) ∧
      (∀ i, min (2 ^ i) 8 = if i < 3 then 2 ^ i else 8) := by
  refine ⟨?_, ?_, ?_⟩
  · intro hfail
    rw [create_attestation_report_on,
      createLoop_all_fail attempt max_retries (max_retries - 0) 0 rfl (Nat.zero_le _)
        (fun i _ hi => hfail i hi)]
    simp [List.range_eq_range']
  · intro k res hkm hk hfail
    rw [create_attestation_report_on,
      createLoop_first_success attempt max_retries res (k - 0) 0 k rfl (Nat.zero_le _) hkm hk
        (fun j _ hj => hfail j hj)]
    simp [List.range_eq_range']
  · intro i
    rcases Nat.lt_or_ge i 3 with hi | hi
    · have h8 : 2 ^ i ≤ 8 := by
        calc 2 ^ i ≤ 2 ^ 2 := Nat.pow_le_pow_right (by omega) (by omega)
        _ ≤ 8 := by norm_num
      simp [hi, Nat.min_eq_left h8]
    · have h8 : 8 ≤ 2 ^ i := by
        calc (8 : Nat) = 2 ^ 3 := by norm_num
        _ ≤ 2 ^ i := Nat.pow_le_pow_right (by omega) hi
      have : ¬ i < 3 := by omega
      simp [this, Nat.min_eq_right h8]

/-- Witness for C8: with `max_retries = 5` and the first success at attempt
3, the report of attempt 3 is returned after sleeping 1, 2 and 4 seconds;
and with a permanently failing primitive and `max_retries = 5`, the call
fails after sleeps 1, 2, 4, 8, 8. -/
theorem create_attestation_report_retries_witness :
    (create_attestation_report_on (fun i => if i = 3 then some [9] else none) none 5 77 =
        (.ok { version := 1, provider := none, encoded_report := [9], timestamp := 77 },
         [1, 2, 4])) ∧
      (create_attestation_report_on (fun _ => none) none 5 77 =
        (.error "Failed to create attestation report", [1, 2, 4, 8, 8])) := by
  constructor
  · have h := (create_attestation_report_retries
      (fun i => if i = 3 then some [9] else none) none 5 77).2.1 3 [9]
        (by decide) (by decide) (by decide)
    rw [h]
    rfl
  · have h := (create_attestation_report_retries (fun _ => none) none 5 77).1
      (fun i _ => rfl)
    rw [h]
    rfl

/-- C10: `load_chain_state` at block number 0 always fails — whichever of
the two leading guards fires — and leaves the whole state unchanged. -/
theorem load_chain_state_rejects_block_zero (env : Env) (p : Pflix)
    (storage : List (Bytes × Bytes)) :
    isErr (load_chain_state env p 0 storage).1 = true ∧
      (load_chain_state env p 0 storage).2 = p := by
  by_cases hc : env.can_load_chain_state p = false <;>
    simp [load_chain_state, hc, isErr]

end Pfx
